import Mathlib

/-!
Verification of the solar-feasibility-checker orchestrator core.

The development shallowly embeds the two parallel implementations of the
repository:

* `app/orchestrator/coordinator.py` together with the three agents in
  `app/agents/` (score extraction, weighted fusion, GO/NO_GO decision,
  per-agent failure containment) and `app/utils/geocode.py`;
* `src/orchestrator.py` together with `src/utils/geo.py` and the models of
  `src/models.py` (address validation, INVALID short-circuit, concurrent
  fan-out via `asyncio.gather`, bundle assembly).

Python machine arithmetic is embedded exactly: an IEEE-754 double-precision
value is represented by the exact rational it denotes (as an explicit
numerator/denominator pair, `Frac`), and each float operation performed by
the source (`0.4 * r_score`, the two additions, the built-in `round`) is
modelled as the exact rational operation followed by correct rounding to 53
significant bits (round-to-nearest, ties to even), which is what CPython's
binary64 arithmetic does for the magnitudes arising here (no overflow and
no subnormals occur for the scores involved).
-/

set_option maxRecDepth 100000

namespace SolarCheck

/-- An unnormalized fraction `num / den` with `den > 0` by construction.
Used to compute with exact values of IEEE-754 doubles; unlike `ℚ` its
operations involve no gcd normalization, so they evaluate by kernel
reduction. -/
structure Frac where
  num : ℤ
  den : ℤ
deriving Repr, DecidableEq

/-- Embed an integer as a fraction. -/
def Frac.ofInt (n : ℤ) : Frac := ⟨n, 1⟩

/-- Exact product of fractions. -/
def Frac.mul (a b : Frac) : Frac := ⟨a.num * b.num, a.den * b.den⟩

/-- Exact sum of fractions. -/
def Frac.add (a b : Frac) : Frac := ⟨a.num * b.den + b.num * a.den, a.den * b.den⟩

/-- Negation of a fraction. -/
def Frac.neg (a : Frac) : Frac := ⟨-a.num, a.den⟩

/-- Comparison `a ≤ b` for fractions with positive denominators. -/
def Frac.fle (a b : Frac) : Bool := decide (a.num * b.den ≤ b.num * a.den)

/-- Comparison `a < b` for fractions with positive denominators. -/
def Frac.flt (a b : Frac) : Bool := decide (a.num * b.den < b.num * a.den)

/-- Value equality of fractions (cross multiplication). -/
def Frac.feq (a b : Frac) : Bool := decide (a.num * b.den = b.num * a.den)

/-- The rational value denoted by a fraction. -/
def Frac.val (a : Frac) : ℚ := (a.num : ℚ) / (a.den : ℚ)

/-- Floor `⌊a⌋` for a fraction with positive denominator (`Int.fdiv` is floor
division). -/
def Frac.floor (a : Frac) : ℤ := Int.fdiv a.num a.den

/-- Round a fraction (with positive denominator) to the nearest integer,
ties to even.  This is the behaviour of Python's built-in `round` on the
exact value of a float. -/
def Frac.rhe (a : Frac) : ℤ :=
  let f := a.floor
  let r := a.num - f * a.den
  if 2 * r < a.den then f
  else if a.den < 2 * r then f + 1
  else if f % 2 = 0 then f else f + 1

/-- Base-2 logarithm of a natural number, structurally recursive on a fuel
argument so that it evaluates by kernel reduction; `log2fuel n n = Nat.log2 n`. -/
def log2fuel : ℕ → ℕ → ℕ
  | 0, _ => 0
  | fuel + 1, n => if 2 ≤ n then log2fuel fuel (n / 2) + 1 else 0

/-- Computes `⌊log₂ n⌋` for `n ≥ 1`. -/
def nlog2 (n : ℕ) : ℕ := log2fuel n n

/-- Power `2 ^ e` as a fraction, for an integer exponent `e`. -/
def f2pow (e : ℤ) : Frac :=
  if 0 ≤ e then ⟨2 ^ e.toNat, 1⟩ else ⟨1, 2 ^ (-e).toNat⟩

/-- Computes `⌊log₂ a⌋` for a positive fraction `a`. -/
def Frac.ilog2 (a : Frac) : ℤ :=
  let e0 : ℤ := (nlog2 a.num.toNat : ℤ) - (nlog2 a.den.toNat : ℤ)
  if (f2pow (e0 + 1)).fle a then e0 + 1
  else if (f2pow e0).fle a then e0
  else e0 - 1

/-- The binary64 double nearest to a positive fraction (round-to-nearest,
ties to even), as an exact fraction. -/
def roundDoublePos (a : Frac) : Frac :=
  let e := a.ilog2
  (Frac.ofInt (Frac.rhe (a.mul (f2pow (52 - e))))).mul (f2pow (e - 52))

/-- The exact value of the IEEE-754 binary64 double nearest to `a`
(round-to-nearest, ties to even), for the normal range used here. -/
def roundDouble (a : Frac) : Frac :=
  if a.num = 0 then ⟨0, 1⟩
  else if 0 < a.num then roundDoublePos a
  else (roundDoublePos a.neg).neg

/-- The double denoted by the Python literal `0.4`. -/
def lit04 : Frac := roundDouble ⟨2, 5⟩

/-- The double denoted by the Python literal `0.3`. -/
def lit03 : Frac := roundDouble ⟨3, 10⟩

/-- Double-precision multiplication. -/
def mulD (a b : Frac) : Frac := roundDouble (a.mul b)

/-- Double-precision addition. -/
def addD (a b : Frac) : Frac := roundDouble (a.add b)

/-- The double computed by `0.4 * r_score + 0.3 * p_score + 0.3 * d_score`
in `Orchestrator.build_final_decision` (`app/orchestrator/coordinator.py`,
line 76); Python evaluates the sum left-associatively, and each integer
score converts exactly to a double. -/
def weightedSumDouble (r p d : ℤ) : Frac :=
  addD (addD (mulD lit04 (Frac.ofInt r)) (mulD lit03 (Frac.ofInt p))) (mulD lit03 (Frac.ofInt d))

/-- Line `final_score = round(0.4 * r_score + 0.3 * p_score + 0.3 * d_score)`
(`app/orchestrator/coordinator.py`, line 76). -/
def final_score (r p d : ℤ) : ℤ := Frac.rhe (weightedSumDouble r p d)

/-- The GO / NO_GO rule of `Orchestrator.build_final_decision`
(`app/orchestrator/coordinator.py`, lines 79-83):
`"GO" if final_score >= 65 and all(s >= 50 for s in [r, p, d]) else "NO_GO"`. -/
def go_no_go (r p d : ℤ) : String :=
  if 65 ≤ final_score r p d ∧ 50 ≤ r ∧ 50 ≤ p ∧ 50 ≤ d then "GO" else "NO_GO"

/-- A semi-structured Python value: the payload universe handled by the
orchestrator (`None`, booleans, ints, floats, strings, lists, dicts). -/
inductive PyVal where
  | none
  | bool (b : Bool)
  | int (n : ℤ)
  | float (x : Frac)
  | str (s : String)
  | list (xs : List PyVal)
  | dict (entries : List (String × PyVal))

/-- Python `dict.get(key)`: the stored value, or `None` when absent. -/
def pyDictGet (entries : List (String × PyVal)) (k : String) : PyVal :=
  (entries.lookup k).getD PyVal.none

/-- Truncation toward zero of a fraction with positive denominator:
Python `int(float)`. -/
def pyTrunc (a : Frac) : ℤ :=
  if 0 ≤ a.num then Int.fdiv a.num a.den else -(Int.fdiv (-a.num) a.den)

/-- Python `int(str)`: strip whitespace, optional sign, decimal digits;
raises (`Option.none`) otherwise.  (Underscore separators and non-ASCII
digits, which CPython also accepts, are not modelled; no payload uses
them.) -/
def pyIntOfString (s : String) : Option ℤ :=
  let t := s.trim
  if t.startsWith "+" then ((t.drop 1).toNat?).map (fun n => (n : ℤ))
  else t.toInt?

/-- Python `int(x)` on an arbitrary value: `Option.none` marks the
`TypeError` / `ValueError` branch caught by `_extract_score`. -/
def pyInt : PyVal → Option ℤ
  | PyVal.int n => some n
  | PyVal.bool b => some (if b then 1 else 0)
  | PyVal.float x => some (pyTrunc x)
  | PyVal.str s => pyIntOfString s
  | _ => Option.none

/-- The key-path traversal loop of `Orchestrator._extract_score`
(`app/orchestrator/coordinator.py`, lines 51-60): dicts are traversed with
`.get`, strings are first parsed with `json.loads` (the stdlib parser is
passed in as the total function `loads`; parse failure is `Option.none`),
and any other value makes `json.loads` raise — modelled as `Option.none`,
which the caller turns into the fallback 50. -/
def extract_loop (loads : String → Option PyVal) : PyVal → List String → Option PyVal
  | cur, [] => some cur
  | PyVal.dict es, k :: rest => extract_loop loads (pyDictGet es k) rest
  | PyVal.str s, k :: rest =>
      match loads s with
      | some (PyVal.dict es) => extract_loop loads (pyDictGet es k) rest
      | _ => Option.none
  | _, _ :: _ => Option.none

/-- Model of `Orchestrator._extract_score` (`app/orchestrator/coordinator.py`,
lines 49-64): traverse the path, then `int(cur)`, returning 50 whenever
either step raises. -/
def extract_score (loads : String → Option PyVal) (data : PyVal) (path : List String) : ℤ :=
  match extract_loop loads data path with
  | Option.none => 50
  | some v => (pyInt v).getD 50

/-- The record returned by `Orchestrator.build_final_decision`
(`app/orchestrator/coordinator.py`, lines 93-102). -/
structure FinalDecision where
  go_no_go : String
  score : ℤ
  research_score : ℤ
  permitting_score : ℤ
  design_score : ℤ
  justification : List String
deriving Repr, DecidableEq

/-- The aggregation, decision and justification steps of
`Orchestrator.build_final_decision` (`app/orchestrator/coordinator.py`,
lines 75-102), as a function of the three extracted component scores. -/
def build_from_scores (r_score p_score d_score : ℤ) : FinalDecision :=
  let fs := final_score r_score p_score d_score
  let go := go_no_go r_score p_score d_score
  { go_no_go := go
  , score := fs
  , research_score := r_score
  , permitting_score := p_score
  , design_score := d_score
  , justification :=
      [ s!"Research score {r_score} reflects local policy sentiment and renewable support."
      , s!"Permitting score {p_score} accounts for jurisdiction requirements and review timelines."
      , s!"Design score {d_score} measures technical yield, cost efficiency, and system robustness."
      , s!"Weighted overall feasibility score is {fs}, resulting in a \x27{go}\x27 decision." ] }

/-- Model of `Orchestrator.build_final_decision` (`app/orchestrator/coordinator.py`,
lines 69-102): extract the three component scores, then aggregate, decide,
and emit the four deterministic justification lines. -/
def build_final_decision (loads : String → Option PyVal)
    (research permitting design : PyVal) : FinalDecision :=
  build_from_scores
    (extract_score loads research ["analysis", "score"])
    (extract_score loads permitting ["permit_form", "score"])
    (extract_score loads design ["design", "score"])

/-- The dict returned by `ResearchAgent.run` (`app/agents/research_agent.py`,
lines 149-154). -/
def research_result_dict (address : String) (news analysis : PyVal) : PyVal :=
  PyVal.dict [("agent", PyVal.str "ResearchAgent"), ("address", PyVal.str address),
              ("news_headlines", news), ("analysis", analysis)]

/-- The fallback analysis built by the `except` clause of
`ResearchAgent.run` (`app/agents/research_agent.py`, lines 140-147). -/
def research_error_analysis (e : String) : PyVal :=
  PyVal.dict [("summary", PyVal.str s!"Error occurred: {e}"),
              ("risks", PyVal.list [PyVal.str "Unhandled exception during research agent run"]),
              ("score", PyVal.int 0), ("sentiment", PyVal.str "error")]

/-- Model of `ResearchAgent.run` (`app/agents/research_agent.py`, lines 134-154).
The body of the `try` block (news fetch + LLM analysis, both external) is
abstracted as the `pipeline` outcome; the `except Exception` clause makes
the function total. -/
def research_agent_run (address : String)
    (pipeline : Except String (PyVal × PyVal)) : PyVal :=
  match pipeline with
  | Except.ok (news, analysis) => research_result_dict address news analysis
  | Except.error e => research_result_dict address (PyVal.list []) (research_error_analysis e)

/-- The dict returned by `PermittingAgent.run`
(`app/agents/permitting_agent.py`, lines 173-179); `friendly_notes` is
`permit_form.get("friendly_notes", "")`. -/
def permitting_result_dict (address : String) (rules : PyVal)
    (form : List (String × PyVal)) : PyVal :=
  PyVal.dict [("agent", PyVal.str "PermittingAgent"), ("address", PyVal.str address),
              ("rules", rules), ("permit_form", PyVal.dict form),
              ("friendly_notes", (form.lookup "friendly_notes").getD (PyVal.str ""))]

/-- The fallback permit form built by the `except` clause of
`PermittingAgent.run` (`app/agents/permitting_agent.py`, lines 164-171). -/
def permitting_error_form (e : String) : List (String × PyVal) :=
  [("summary", PyVal.str s!"Error occurred: {e}"), ("score", PyVal.int 0),
   ("special_considerations", PyVal.str "Error in pipeline.")]

/-- Model of `PermittingAgent.run` (`app/agents/permitting_agent.py`, lines 158-179). -/
def permitting_agent_run (address : String)
    (pipeline : Except String (PyVal × List (String × PyVal))) : PyVal :=
  match pipeline with
  | Except.ok (rules, form) => permitting_result_dict address rules form
  | Except.error e => permitting_result_dict address (PyVal.dict []) (permitting_error_form e)

/-- The dict returned by `DesignAgent.run` (`app/agents/design_agent.py`,
lines 196-201). -/
def design_result_dict (address : String) (pv design : PyVal) : PyVal :=
  PyVal.dict [("agent", PyVal.str "DesignAgent"), ("address", PyVal.str address),
              ("pvwatts_raw", pv), ("design", design)]

/-- The fallback design data built by the `except` clause of
`DesignAgent.run` (`app/agents/design_agent.py`, lines 191-194). -/
def design_error_data (e : String) : PyVal :=
  PyVal.dict [("error", PyVal.str e), ("score", PyVal.int 0)]

/-- Model of `DesignAgent.run` (`app/agents/design_agent.py`, lines 180-201). -/
def design_agent_run (address : String)
    (pipeline : Except String (PyVal × PyVal)) : PyVal :=
  match pipeline with
  | Except.ok (pv, dd) => design_result_dict address pv dd
  | Except.error e => design_result_dict address (PyVal.dict []) (design_error_data e)

/-- The dict returned by `Orchestrator.evaluate_address`
(`app/orchestrator/coordinator.py`, lines 38-44). -/
structure Evaluation where
  address : String
  research : PyVal
  permitting : PyVal
  design : PyVal
  final_decision : FinalDecision

/-- Model of `Orchestrator.evaluate_address` (`app/orchestrator/coordinator.py`,
lines 27-44): run the three agents, then fuse. -/
def evaluate_address (loads : String → Option PyVal) (address : String)
    (researchPipe : Except String (PyVal × PyVal))
    (permitPipe : Except String (PyVal × List (String × PyVal)))
    (designPipe : Except String (PyVal × PyVal)) : Evaluation :=
  let research := research_agent_run address researchPipe
  let permitting := permitting_agent_run address permitPipe
  let design := design_agent_run address designPipe
  { address := address, research := research, permitting := permitting, design := design,
    final_decision := build_final_decision loads research permitting design }

/-- The per-producer entries of the returned evaluation dict, in its fixed
key order research, permitting, design. -/
def producer_results (e : Evaluation) : List PyVal := [e.research, e.permitting, e.design]

/-- Model of `geocode_address` (`app/utils/geocode.py`, lines 11-45): a readable
cache entry wins; otherwise a successful remote lookup; otherwise the
Phoenix, AZ fallback `(33.4484, -112.0740)`.  Unreadable or absent cache
is `Option.none` for `cached`; remote failure, timeout, or empty result
list is `Option.none` for `remote`. -/
def geocode_address (cached : Option (Frac × Frac)) (remote : Option (Frac × Frac)) :
    Frac × Frac :=
  match cached with
  | some c => c
  | Option.none =>
    match remote with
    | some r => r
    | Option.none => (⟨334484, 10000⟩, ⟨-1120740, 10000⟩)

/-- The `.seconds` attribute of a Python `timedelta` of `elapsed` total
seconds: the seconds component, always in `[0, 86400)`. -/
def timedelta_seconds (elapsed : ℕ) : ℕ := elapsed % 86400

/-- The cache gate of `ResearchAgent.fetch_news`
(`app/agents/research_agent.py`, lines 30-34): the cached entry is served
iff the file exists and `(datetime.now() - mtime).seconds < 86400`. -/
def fetch_news_uses_cache (cacheFileExists : Bool) (elapsed : ℕ) : Bool :=
  cacheFileExists && decide (timedelta_seconds elapsed < 86400)

/-- The cache gate of `DesignAgent.call_pvwatts`
(`app/agents/design_agent.py`, lines 35-37): the entry (keyed on rounded
coordinates) is served whenever the file exists — no freshness check. -/
def call_pvwatts_uses_cache (cacheFileExists : Bool) : Bool := cacheFileExists

/-- Python `str.strip()` whitespace (ASCII part; the addresses involved
contain no non-ASCII whitespace). -/
def isSpaceChar (c : Char) : Bool :=
  c = ' ' || c = '\t' || c = '\n' || c = '\x0B' || c = '\x0C' || c = '\r'

/-- An ASCII letter; `[A-Z]` under `re.IGNORECASE`. -/
def isAsciiAlpha (c : Char) : Bool :=
  ('A' ≤ c && c ≤ 'Z') || ('a' ≤ c && c ≤ 'z')

/-- A `\w` character (ASCII part: letter, digit or underscore; the
addresses involved contain no non-ASCII word characters). -/
def isWordChar (c : Char) : Bool :=
  isAsciiAlpha c || ('0' ≤ c && c ≤ '9') || c = '_'

/-- A `[\w\s]` character. -/
def isWordSpace (c : Char) : Bool := isWordChar c || isSpaceChar c

/-- Python `str.strip()`. -/
def pyStrip (s : String) : String :=
  String.mk (((s.data.dropWhile isSpaceChar).reverse.dropWhile isSpaceChar).reverse)

/-- Python `str.split(",")` on the character list: every comma separates,
and the empty string yields one empty part. -/
def splitCommas : List Char → List (List Char)
  | [] => [[]]
  | c :: rest =>
    let r := splitCommas rest
    if c = ',' then [] :: r
    else
      match r with
      | [] => [[c]]
      | h :: t => (c :: h) :: t

/-- Model of `validate_address_format` (`src/utils/geo.py`, lines 10-19):
`re.match(r"^.+,\s*[\w\s]+,\s*[A-Z]{2}$", address.strip(), re.IGNORECASE)`.
Because neither `[\w\s]` nor `\s` nor `[A-Z]` matches a comma, a match
decomposes uniquely at the last two commas, so the regex is evaluated by
scanning the stripped string from its end: two ASCII letters, optional
whitespace, a comma, a nonempty `[\w\s]` run, a comma, and a nonempty
remainder. -/
def validate_address_format (address : String) : Bool :=
  match (pyStrip address).data.reverse with
  | a :: b :: rest =>
    isAsciiAlpha a && isAsciiAlpha b &&
      (match rest.dropWhile isSpaceChar with
       | ',' :: rest3 =>
         (!(rest3.takeWhile isWordSpace).isEmpty) &&
           (match rest3.dropWhile isWordSpace with
            | ',' :: rest5 => !rest5.isEmpty
            | _ => false)
       | _ => false)
  | _ => false

/-- Model of `parse_jurisdiction_from_address` (`src/utils/geo.py`, lines 22-41):
validate, split on commas, strip and drop empty parts, and take the last
two parts as city and state; `Option.none` is the raised `ValueError`. -/
def parse_jurisdiction_from_address (address : String) :
    Option (String × String × String) :=
  let a := pyStrip address
  if validate_address_format a = false then Option.none
  else
    let parts := ((splitCommas a.data).map (fun cs => pyStrip (String.mk cs))).filter
      (fun p => p ≠ "")
    if parts.length < 3 then Option.none
    else some (parts.getD (parts.length - 2) "", parts.getD (parts.length - 1) "", "USA")

/-- Model of `ResearchFinding` (`src/models.py`, lines 21-24). -/
structure ResearchFinding where
  source : String
  title : String
  url : Option String
  sentiment : Option String

/-- Model of `ResearchResult` (`src/models.py`, lines 28-32). -/
structure ResearchResult where
  address : String
  favorable_policy : Bool
  rationale : String
  findings : List ResearchFinding

/-- Model of `PermitChecklistItem` (`src/models.py`, lines 39-43). -/
structure PermitChecklistItem where
  item : String
  required : Bool
  provided : Bool
  notes : Option String

/-- Model of `PermitForm` (`src/models.py`, lines 46-50). -/
structure PermitForm where
  jurisdiction : String
  project_type : String
  auto_filled_fields : List (String × String)
  checklist : List PermitChecklistItem

/-- Model of `PermittingResult` (`src/models.py`, lines 53-59). -/
structure PermittingResult where
  address : String
  jurisdiction : String
  form : Option PermitForm
  readiness_score : ℤ
  blockers : List String

/-- Model of `DesignResult` (`src/models.py`, lines 66-71); the two float fields
hold exact double values. -/
structure DesignResult where
  address : String
  capacity_kw : Frac
  annual_kwh : Frac
  bom : List String
  assumptions : List (String × PyVal)

/-- Model of `SiteBundle` (`src/models.py`, lines 5-14). -/
structure SiteBundle where
  address : String
  score : Frac
  decision : String
  summary : String
  results : List PyVal

/-- An optional string dumped to JSON-like form. -/
def optStrVal : Option String → PyVal
  | Option.none => PyVal.none
  | some s => PyVal.str s

/-- Model of `ResearchFinding.model_dump()`. -/
def ResearchFinding.dump (f : ResearchFinding) : PyVal :=
  PyVal.dict [("source", PyVal.str f.source), ("title", PyVal.str f.title),
              ("url", optStrVal f.url), ("sentiment", optStrVal f.sentiment)]

/-- Model of `ResearchResult.model_dump()`. -/
def ResearchResult.dump (r : ResearchResult) : PyVal :=
  PyVal.dict [("address", PyVal.str r.address),
              ("favorable_policy", PyVal.bool r.favorable_policy),
              ("rationale", PyVal.str r.rationale),
              ("findings", PyVal.list (r.findings.map ResearchFinding.dump))]

/-- Model of `PermitChecklistItem.model_dump()`. -/
def PermitChecklistItem.dump (i : PermitChecklistItem) : PyVal :=
  PyVal.dict [("item", PyVal.str i.item), ("required", PyVal.bool i.required),
              ("provided", PyVal.bool i.provided), ("notes", optStrVal i.notes)]

/-- Model of `PermitForm.model_dump()`. -/
def PermitForm.dump (f : PermitForm) : PyVal :=
  PyVal.dict [("jurisdiction", PyVal.str f.jurisdiction),
              ("project_type", PyVal.str f.project_type),
              ("auto_filled_fields",
               PyVal.dict (f.auto_filled_fields.map (fun kv => (kv.1, PyVal.str kv.2)))),
              ("checklist", PyVal.list (f.checklist.map PermitChecklistItem.dump))]

/-- Model of `PermittingResult.model_dump()`. -/
def PermittingResult.dump (p : PermittingResult) : PyVal :=
  PyVal.dict [("address", PyVal.str p.address),
              ("jurisdiction", PyVal.str p.jurisdiction),
              ("form", match p.form with
                       | Option.none => PyVal.none
                       | some f => f.dump),
              ("readiness_score", PyVal.int p.readiness_score),
              ("blockers", PyVal.list (p.blockers.map PyVal.str))]

/-- Model of `DesignResult.model_dump()`. -/
def DesignResult.dump (d : DesignResult) : PyVal :=
  PyVal.dict [("address", PyVal.str d.address),
              ("capacity_kw", PyVal.float d.capacity_kw),
              ("annual_kwh", PyVal.float d.annual_kwh),
              ("bom", PyVal.list (d.bom.map PyVal.str)),
              ("assumptions", PyVal.dict d.assumptions)]

/-- The output of one of the three concurrently awaited producer tasks of
`run_for_address` (`src/orchestrator.py`, lines 36-40). -/
inductive TaskOutput where
  | research (r : ResearchResult)
  | permitting (p : PermittingResult)
  | design (d : DesignResult)

/-- The three awaitables passed to `asyncio.gather`, in argument order:
research, permitting, design. -/
def agent_tasks (r : ResearchResult) (p : PermittingResult) (d : DesignResult) :
    ℕ → TaskOutput
  | 0 => TaskOutput.research r
  | 1 => TaskOutput.permitting p
  | _ => TaskOutput.design d

/-- Model of `asyncio.gather`: the tasks complete in the arbitrary order
`completionOrder` (a completion event records the task index and its
output), and gather reassembles the outputs positionally, by index, into
the argument order.  `Option.none` covers ill-formed schedules in which
some task never completes. -/
def gather3 (completionOrder : List ℕ) (t : ℕ → TaskOutput) :
    Option (TaskOutput × TaskOutput × TaskOutput) :=
  match (completionOrder.map (fun i => (i, t i))).lookup 0,
        (completionOrder.map (fun i => (i, t i))).lookup 1,
        (completionOrder.map (fun i => (i, t i))).lookup 2 with
  | some a, some b, some c => some (a, b, c)
  | _, _, _ => Option.none

/-- Tests whether `pat` is a prefix of the second list (Python string comparison). -/
def listStartsWith : List Char → List Char → Bool
  | [], _ => true
  | _ :: _, [] => false
  | a :: as, b :: bs => a == b && listStartsWith as bs

/-- Tests whether `pat` occurs as a contiguous run in the list. -/
def listContainsSub (pat : List Char) : List Char → Bool
  | [] => pat.isEmpty
  | c :: rest => listStartsWith pat (c :: rest) || listContainsSub pat rest

/-- Python `pat in s` on strings. -/
def strContainsSub (s pat : String) : Bool := listContainsSub pat.data s.data

/-- The research component score of `run_for_address`
(`src/orchestrator.py`, lines 44-51). -/
def research_score_of (rr : ResearchResult) : ℤ :=
  if rr.favorable_policy = false then
    (if strContainsSub rr.rationale "No reliable policy data" then 20 else 40)
  else 90

/-- The permitting component score of `run_for_address`
(`src/orchestrator.py`, lines 53-57). -/
def permit_score_of (pr : PermittingResult) : ℤ :=
  if pr.form.isNone || pr.readiness_score = 0 then 0 else pr.readiness_score

/-- The design component score of `run_for_address`
(`src/orchestrator.py`, lines 59-63): `min(capacity_kw * 10, 100)` mixes a
double product with the int literal `100`, and Python `min` returns the
first argument on ties, so the result is int 20, the double product, or
int 100. -/
def design_score_of (dr : DesignResult) : ℤ ⊕ Frac :=
  if dr.capacity_kw.num = 0 then Sum.inl 20
  else
    let prod := mulD dr.capacity_kw ⟨10, 1⟩
    if prod.fle ⟨100, 1⟩ then Sum.inr prod else Sum.inl 100

/-- Numeric value of an int-or-float score. -/
def pynumVal : ℤ ⊕ Frac → Frac
  | Sum.inl n => Frac.ofInt n
  | Sum.inr x => x

/-- The decimal string `n × 10^(-k)` written with exactly `k` fractional
digits (`k = 0` is Python's `.0` form for a float of integral value). -/
def decimalString (n : ℤ) (k : ℕ) : String :=
  if k = 0 then s!"{n}.0"
  else
    let sign := if n < 0 then "-" else ""
    let m := n.natAbs
    let ip := m / 10 ^ k
    let fs := toString (m % 10 ^ k)
    let fp := String.mk (List.replicate (k - fs.length) '0') ++ fs
    s!"{sign}{ip}.{fp}"

/-- Search for the fewest fractional digits whose decimal rounds back to
the double `x` (half-even decimal rounding at each width). -/
def shortestDecimal (x : Frac) : ℕ → ℕ → String
  | 0, k => decimalString (Frac.rhe (x.mul ⟨(10 : ℤ) ^ k, 1⟩)) k
  | fuel + 1, k =>
    let scaled := Frac.rhe (x.mul ⟨(10 : ℤ) ^ k, 1⟩)
    if (roundDouble ⟨scaled, (10 : ℤ) ^ k⟩).feq x then decimalString scaled k
    else shortestDecimal x fuel (k + 1)

/-- Python `str(float)`: the shortest decimal that round-trips to the same
double (the values printed here are small enough that CPython never
switches to scientific notation). -/
def pyFloatRepr (x : Frac) : String := shortestDecimal x 17 0

/-- Python `str` of an int-or-float score. -/
def pynumRepr : ℤ ⊕ Frac → String
  | Sum.inl n => s!"{n}"
  | Sum.inr x => pyFloatRepr x

/-- Model of `run_for_address` (`src/orchestrator.py`, lines 12-123).  The three
producer outputs are supplied as inputs (`researchIn`, `permitIn`,
`designIn` — their internal logic is out of the orchestrator's scope) and
`order` is the completion order of the three concurrently gathered tasks.
On an address that fails validation the bundle is built before any
producer task exists.  `Option.none` arises only from ill-formed
completion schedules. -/
def run_for_address (address : String) (order : List ℕ)
    (researchIn : ResearchResult) (permitIn : PermittingResult)
    (designIn : DesignResult) : Option SiteBundle :=
  match parse_jurisdiction_from_address address with
  | Option.none => some
      { address := address, score := ⟨0, 1⟩, decision := "INVALID",
        summary := s!"Invalid address format: \x27{address}\x27. Please use \x27123 Main St, City, ST\x27.",
        results := [] }
  | some _ =>
    match gather3 order (agent_tasks researchIn permitIn designIn) with
    | some (TaskOutput.research rr, TaskOutput.permitting pr, TaskOutput.design dr) =>
      let research_score := research_score_of rr
      let permit_score := permit_score_of pr
      let design_score := design_score_of dr
      let sum := addD (addD (mulD (Frac.ofInt research_score) lit04)
                            (mulD (Frac.ofInt permit_score) lit03))
                      (mulD (pynumVal design_score) lit03)
      let tenths := Frac.rhe (sum.mul ⟨10, 1⟩)
      let composite := roundDouble ⟨tenths, 10⟩
      let decision := if (⟨70, 1⟩ : Frac).fle composite then "GO" else "NO-GO"
      let breakdown := pyStrip
        (s!"\nFeasibility Score Breakdown:\n• Research Score: {research_score}/100\n• Permitting Score: {permit_score}/100\n• Design Score: " ++
         pynumRepr design_score ++ "/100\n• Weighted Composite: " ++ pyFloatRepr composite ++ "/100\n")
      let bom_items := if dr.bom.isEmpty then "No BoM available"
                       else String.intercalate ", " dr.bom
      let jurisdiction := pr.jurisdiction
      let readiness := pr.readiness_score
      let rationale := rr.rationale
      let permitting_line :=
        if 0 < pr.readiness_score then
          s!"Permitting → {jurisdiction} ({readiness}/100)"
        else s!"Permitting → No permitting data found for {jurisdiction}."
      let base_lines :=
        [ s!"Research → {rationale}"
        , permitting_line
        , "Design → " ++ pyFloatRepr dr.capacity_kw ++ " kW → " ++
            pyFloatRepr dr.annual_kwh ++ " kWh/yr"
        , s!"BoM → {bom_items}"
        , breakdown ]
      let summary_lines :=
        if composite.flt ⟨70, 1⟩ &&
           (strContainsSub rr.rationale "No reliable policy data" ||
            pr.form.isNone || dr.bom.isEmpty) then
          "⚠️ Limited or missing data reduced feasibility confidence." :: base_lines
        else base_lines
      some
        { address := address, score := composite, decision := decision,
          summary := String.intercalate "\n" summary_lines,
          results := [rr.dump, pr.dump, dr.dump] }
    | _ => Option.none

/-- Whether an agent pipeline outcome is the raised/`Failed` case. -/
def pipeFailed {α : Type} : Except String α → Bool
  | Except.error _ => true
  | Except.ok _ => false

/-- Exactly one of the three producer pipelines failed. -/
def exactly_one_failed {α β γ : Type}
    (a : Except String α) (b : Except String β) (c : Except String γ) : Prop :=
  (pipeFailed a = true ∧ pipeFailed b = false ∧ pipeFailed c = false) ∨
  (pipeFailed a = false ∧ pipeFailed b = true ∧ pipeFailed c = false) ∨
  (pipeFailed a = false ∧ pipeFailed b = false ∧ pipeFailed c = true)

/-- A concrete research producer output, used to instantiate the
universally quantified theorems below at a specific input. -/
def sampleResearch : ResearchResult :=
  { address := "123 Solar Way, Phoenix, AZ", favorable_policy := true
  , rationale := "Phoenix, AZ shows favorable policy signals for solar deployment."
  , findings := [] }

/-- A concrete permitting producer output. -/
def samplePermit : PermittingResult :=
  { address := "123 Solar Way, Phoenix, AZ", jurisdiction := "Phoenix, AZ"
  , form := Option.none, readiness_score := 0, blockers := [] }

/-- A concrete design producer output. -/
def sampleDesign : DesignResult :=
  { address := "123 Solar Way, Phoenix, AZ", capacity_kw := ⟨0, 1⟩
  , annual_kwh := ⟨0, 1⟩, bom := [], assumptions := [] }

/-!  Theorems.  Each claim of the specification is settled by exactly one
theorem below, stated over the definitions above.

The first examples validate the double-arithmetic model against CPython's
observable values: the exact doubles denoted by the literals `0.4` and
`0.3`, an intermediate product, and the final scores of several triples,
including the tie cases where double representation error decides the
rounding direction. -/

example : lit04.feq ⟨3602879701896397, 9007199254740992⟩ = true := by decide
example : lit03.feq ⟨5404319552844595, 18014398509481984⟩ = true := by decide
example : (mulD lit04 (Frac.ofInt 82)).feq ⟨4616189618054759, 140737488355328⟩ = true := by decide
example : final_score 82 70 60 = 72 := by decide
example : final_score 100 100 10 = 73 := by decide
example : final_score 0 0 5 = 2 := by decide
example : final_score 2 0 9 = 4 := by decide
example : final_score 2 6 3 = 3 := by decide
example : final_score 0 1 24 = 7 := by decide

/-- C1: for all component scores, the fusion decision is `GO` iff the
weighted final score is at least 65 and every component score is at least
50, and `NO_GO` in every other case; in particular scores 100, 100, 10
give a weighted total of 73 (≥ 65) yet the decision is `NO_GO`. -/
theorem fusion_decision_conjunctive_floor :
    (∀ r p d : ℤ, go_no_go r p d = "GO" ↔
      (65 ≤ final_score r p d ∧ 50 ≤ r ∧ 50 ≤ p ∧ 50 ≤ d)) ∧
    (∀ r p d : ℤ, go_no_go r p d = "GO" ∨ go_no_go r p d = "NO_GO") ∧
    final_score 100 100 10 = 73 ∧ go_no_go 100 100 10 = "NO_GO" := by
  refine ⟨?_, ?_, by decide, by decide⟩
  · intro r p d
    constructor
    · intro hgo
      by_contra hno
      unfold go_no_go at hgo
      rw [if_neg hno] at hgo
      exact absurd hgo (by decide)
    · intro h
      unfold go_no_go
      rw [if_pos h]
  · intro r p d
    unfold go_no_go
    by_cases h : 65 ≤ final_score r p d ∧ 50 ≤ r ∧ 50 ≤ p ∧ 50 ≤ d
    · exact Or.inl (if_pos h)
    · exact Or.inr (if_neg h)

/-- C2 counterexample: the final score is not `round` of the exact
weighted sum under any single rounding mode — the score triples
`(2, 0, 9)` and `(2, 6, 3)` have the same exact weighted sum
`0.4·r + 0.3·p + 0.3·d = 3.5`, yet the code produces 4 for the first and
3 for the second (the tie direction follows the accumulated
double-precision representation error). -/
theorem final_score_not_round_of_weighted_sum :
    final_score 2 0 9 = 4 ∧ final_score 2 6 3 = 3 ∧
    ((2 : ℚ) / 5 * 2 + 3 / 10 * 0 + 3 / 10 * 9 = 2 / 5 * 2 + 3 / 10 * 6 + 3 / 10 * 3) :=
  ⟨by decide, by decide, by norm_num⟩

/-- C2 (amended): the final score is the integer produced by Python's
`round` — round-half-even — applied to the double-precision evaluation of
`0.4*r + 0.3*p + 0.3*d` (not to its exact value, which the computed double
can miss on exact ties); it is always an integer, and for scores 82, 70,
60 it is 72 with decision `GO`. -/
theorem final_score_rounds_double_sum :
    (∀ r p d : ℤ, final_score r p d = Frac.rhe (weightedSumDouble r p d)) ∧
    final_score 82 70 60 = 72 ∧ go_no_go 82 70 60 = "GO" :=
  ⟨fun _ _ _ => rfl, by decide, by decide⟩

/-- C3 counterexample: `_extract_score` does not clamp to `[0, 100]` — a
payload carrying `score = 150` at the known path yields 150, outside the
claimed range. -/
theorem extract_score_unclamped :
    extract_score (fun _ => Option.none)
      (PyVal.dict [("analysis", PyVal.dict [("score", PyVal.int 150)])])
      ["analysis", "score"] = 150 ∧ ¬((150 : ℤ) ≤ 100) :=
  ⟨rfl, by decide⟩

/-- C3 (amended): score extraction is total and never raises — every
raising step of the source is caught and turned into the fallback 50 — a
numeric field found at the known path is coerced to an integer as-is
(without clamping), a missing field yields 50, and an unparsable string
payload yields 50. -/
theorem extract_score_total_with_fallback :
    (∀ (loads : String → Option PyVal) (s k : String) (rest : List String),
       loads s = Option.none →
       extract_score loads (PyVal.str s) (k :: rest) = 50) ∧
    (∀ (loads : String → Option PyVal) (n : ℤ),
       extract_score loads
         (PyVal.dict [("analysis", PyVal.dict [("score", PyVal.int n)])])
         ["analysis", "score"] = n) ∧
    (∀ loads : String → Option PyVal,
       extract_score loads (PyVal.dict []) ["analysis", "score"] = 50) ∧
    (∀ (loads : String → Option PyVal) (data : PyVal) (path : List String),
       extract_loop loads data path = Option.none →
       extract_score loads data path = 50) ∧
    (∀ (loads : String → Option PyVal) (data : PyVal) (path : List String) (v : PyVal),
       extract_loop loads data path = some v → pyInt v = Option.none →
       extract_score loads data path = 50) ∧
    (∀ (loads : String → Option PyVal) (data : PyVal) (path : List String) (v : PyVal) (n : ℤ),
       extract_loop loads data path = some v → pyInt v = some n →
       extract_score loads data path = n) := by
  refine ⟨?_, ?_, ?_, ?_, ?_, ?_⟩
  · intro loads s k rest h
    unfold extract_score extract_loop
    rw [h]
  · intro loads n
    rfl
  · intro loads
    rfl
  · intro loads data path h
    unfold extract_score
    rw [h]
  · intro loads data path v h hv
    unfold extract_score
    rw [h]
    show (pyInt v).getD 50 = 50
    rw [hv]
    rfl
  · intro loads data path v n h hv
    unfold extract_score
    rw [h]
    show (pyInt v).getD 50 = n
    rw [hv]
    rfl

/-- C3 witness: the amended statement evaluated at concrete payloads — an
unparsable string payload gives 50, an out-of-range numeric field is
passed through unclamped, an empty dict gives 50. -/
theorem extract_score_total_witness :
    extract_score (fun _ => Option.none) (PyVal.str "raw llm text") ["score"] = 50 ∧
    extract_score (fun _ => Option.none)
      (PyVal.dict [("analysis", PyVal.dict [("score", PyVal.int 150)])])
      ["analysis", "score"] = 150 ∧
    extract_score (fun _ => Option.none) (PyVal.dict []) ["analysis", "score"] = 50 :=
  ⟨extract_score_total_with_fallback.1 (fun _ => Option.none) "raw llm text" "score" [] rfl,
   extract_score_total_with_fallback.2.1 (fun _ => Option.none) 150,
   extract_score_total_with_fallback.2.2.1 (fun _ => Option.none)⟩

/-- C4: each agent's `run` converts any internal failure into a returned
result whose payload carries `score = 0` at the path the orchestrator
reads — the `except Exception` clause makes the producer boundary total,
so no exception escapes. -/
theorem producer_failure_contained :
    ∀ (loads : String → Option PyVal) (address e : String),
      extract_score loads (research_agent_run address (Except.error e))
        ["analysis", "score"] = 0 ∧
      extract_score loads (permitting_agent_run address (Except.error e))
        ["permit_form", "score"] = 0 ∧
      extract_score loads (design_agent_run address (Except.error e))
        ["design", "score"] = 0 :=
  fun _ _ _ => ⟨rfl, rfl, rfl⟩

/-- C5: on an address that fails context resolution, `run_for_address`
short-circuits to the distinguished `INVALID` bundle — score 0, a
justification naming the resolution failure, and an empty results list —
for every producer behaviour and every completion schedule, i.e. without
invoking any producer. -/
theorem invalid_address_short_circuit :
    ∀ (address : String) (order : List ℕ) (rIn : ResearchResult)
      (pIn : PermittingResult) (dIn : DesignResult),
      parse_jurisdiction_from_address address = Option.none →
      run_for_address address order rIn pIn dIn = some
        { address := address, score := ⟨0, 1⟩, decision := "INVALID",
          summary := s!"Invalid address format: \x27{address}\x27. Please use \x27123 Main St, City, ST\x27.",
          results := [] } := by
  intro address order rIn pIn dIn h
  unfold run_for_address
  rw [h]

/-- C5 witness: the unresolvable address `"???"` produces the `INVALID`
bundle with score 0 and no producer results. -/
theorem invalid_address_witness :
    parse_jurisdiction_from_address "???" = Option.none ∧
    (run_for_address "???" [0, 1, 2] sampleResearch samplePermit sampleDesign).map
      (fun b => (b.decision, b.score, b.results)) = some ("INVALID", ⟨0, 1⟩, []) := by
  refine ⟨by decide, ?_⟩
  rw [invalid_address_short_circuit "???" [0, 1, 2] sampleResearch samplePermit sampleDesign
    (by decide)]
  rfl

/-- C6: when exactly one producer pipeline fails while the other two
succeed, the evaluation dict still carries exactly three producer results
in the fixed research, permitting, design order, and each successful
producer's full result dict is intact. -/
theorem one_producer_failure_preserves_bundle :
    ∀ (loads : String → Option PyVal) (address : String)
      (rPipe : Except String (PyVal × PyVal))
      (pPipe : Except String (PyVal × List (String × PyVal)))
      (dPipe : Except String (PyVal × PyVal)),
      exactly_one_failed rPipe pPipe dPipe →
      producer_results (evaluate_address loads address rPipe pPipe dPipe) =
        [research_agent_run address rPipe, permitting_agent_run address pPipe,
         design_agent_run address dPipe] ∧
      (producer_results (evaluate_address loads address rPipe pPipe dPipe)).length = 3 ∧
      (∀ news analysis, rPipe = Except.ok (news, analysis) →
        research_agent_run address rPipe = research_result_dict address news analysis) ∧
      (∀ rules form, pPipe = Except.ok (rules, form) →
        permitting_agent_run address pPipe = permitting_result_dict address rules form) ∧
      (∀ pv dd, dPipe = Except.ok (pv, dd) →
        design_agent_run address dPipe = design_result_dict address pv dd) := by
  intro loads address rPipe pPipe dPipe _
  refine ⟨rfl, rfl, ?_, ?_, ?_⟩
  · intro x y h
    subst h
    rfl
  · intro x y h
    subst h
    rfl
  · intro x y h
    subst h
    rfl

/-- C6 witness: with the research pipeline failing and the other two
succeeding, the evaluation still lists the three producer results in
order. -/
theorem one_producer_failure_witness :
    producer_results (evaluate_address (fun _ => Option.none) "1 Main St, Phoenix, AZ"
        (Except.error "boom")
        (Except.ok (PyVal.dict [], [("score", PyVal.int 70)]))
        (Except.ok (PyVal.dict [], PyVal.dict [("score", PyVal.int 60)]))) =
      [research_agent_run "1 Main St, Phoenix, AZ" (Except.error "boom"),
       permitting_agent_run "1 Main St, Phoenix, AZ"
         (Except.ok (PyVal.dict [], [("score", PyVal.int 70)])),
       design_agent_run "1 Main St, Phoenix, AZ"
         (Except.ok (PyVal.dict [], PyVal.dict [("score", PyVal.int 60)]))] :=
  (one_producer_failure_preserves_bundle (fun _ => Option.none) "1 Main St, Phoenix, AZ"
    (Except.error "boom")
    (Except.ok (PyVal.dict [], [("score", PyVal.int 70)]))
    (Except.ok (PyVal.dict [], PyVal.dict [("score", PyVal.int 60)]))
    (Or.inl ⟨rfl, rfl, rfl⟩)).1

/-- Looking up a completed task's index in the completion-event log yields
that task's output, whichever order the log has. -/
theorem lookup_completion_events (order : List ℕ) (t : ℕ → TaskOutput) (j : ℕ)
    (hj : j ∈ order) :
    (order.map (fun i => (i, t i))).lookup j = some (t j) := by
  induction order with
  | nil => exact absurd hj (List.not_mem_nil j)
  | cons i rest ih =>
    by_cases h : j = i
    · subst h
      simp [List.lookup]
    · have hne : (j == i) = false := by simp [h]
      rcases List.mem_cons.mp hj with h' | h'
      · exact absurd h' h
      · simp only [List.map_cons, List.lookup, hne]
        exact ih h'

/-- The modelled `asyncio.gather` reassembles outputs positionally whenever every task
completes, regardless of completion order. -/
theorem gather3_complete (order : List ℕ) (t : ℕ → TaskOutput)
    (h0 : 0 ∈ order) (h1 : 1 ∈ order) (h2 : 2 ∈ order) :
    gather3 order t = some (t 0, t 1, t 2) := by
  unfold gather3
  rw [lookup_completion_events order t 0 h0, lookup_completion_events order t 1 h1,
      lookup_completion_events order t 2 h2]

/-- C7: for every resolvable address and every completion order in which
all three concurrently gathered producers finish, the bundle's results
list is the fixed invocation order research, permitting, design. -/
theorem bundle_results_fixed_order :
    ∀ (address : String) (order : List ℕ) (rIn : ResearchResult)
      (pIn : PermittingResult) (dIn : DesignResult) (j : String × String × String),
      parse_jurisdiction_from_address address = some j →
      0 ∈ order → 1 ∈ order → 2 ∈ order →
      ∃ b, run_for_address address order rIn pIn dIn = some b ∧
        b.results = [rIn.dump, pIn.dump, dIn.dump] := by
  intro address order rIn pIn dIn j hp h0 h1 h2
  unfold run_for_address
  rw [hp, gather3_complete order (agent_tasks rIn pIn dIn) h0 h1 h2]
  exact ⟨_, rfl, rfl⟩

/-- C7 witness: with completion order design, research, permitting, the
bundle still lists results as research, permitting, design. -/
theorem bundle_results_order_witness :
    ∃ b, run_for_address "123 Solar Way, Phoenix, AZ" [2, 0, 1]
        sampleResearch samplePermit sampleDesign = some b ∧
      b.results = [sampleResearch.dump, samplePermit.dump, sampleDesign.dump] :=
  bundle_results_fixed_order "123 Solar Way, Phoenix, AZ" [2, 0, 1]
    sampleResearch samplePermit sampleDesign ("Phoenix", "AZ", "USA")
    (by decide) (by decide) (by decide) (by decide)

/-- C8 (code bug): the research cache gate compares the `.seconds`
component of the elapsed timedelta — always below 86400 — so a 25-hour-old
entry (90000 s) is still served, and in fact the cached entry is served
whatever its age, contradicting the intended 24-hour freshness window;
the coordinate-keyed design cache has no expiry, as specified. -/
theorem research_cache_never_expires :
    fetch_news_uses_cache true 90000 = true ∧ 86400 < 90000 ∧
    (∀ elapsed : ℕ, fetch_news_uses_cache true elapsed = true) ∧
    (∀ b : Bool, call_pvwatts_uses_cache b = b) := by
  refine ⟨rfl, by decide, ?_, fun _ => rfl⟩
  intro elapsed
  have h : elapsed % 86400 < 86400 := Nat.mod_lt _ (by norm_num)
  simp [fetch_news_uses_cache, timedelta_seconds, h]

/-- C9: the fusion step is a pure function of the three extracted
component scores — any two producer-result triples with the same extracted
scores yield the identical final score, decision and justification lines —
and the justification always consists of one line per producer plus one
overall line (four lines). -/
theorem fusion_pure_function_of_scores :
    (∀ (loads : String → Option PyVal) (r1 p1 d1 r2 p2 d2 : PyVal),
      extract_score loads r1 ["analysis", "score"] =
        extract_score loads r2 ["analysis", "score"] →
      extract_score loads p1 ["permit_form", "score"] =
        extract_score loads p2 ["permit_form", "score"] →
      extract_score loads d1 ["design", "score"] =
        extract_score loads d2 ["design", "score"] →
      build_final_decision loads r1 p1 d1 = build_final_decision loads r2 p2 d2) ∧
    (∀ (loads : String → Option PyVal) (r p d : PyVal),
      (build_final_decision loads r p d).justification.length = 4) := by
  constructor
  · intro loads r1 p1 d1 r2 p2 d2 h1 h2 h3
    unfold build_final_decision
    rw [h1, h2, h3]
  · intro loads r p d
    rfl

/-- C9 witness: two payload triples that differ structurally but extract
to the same scores produce identical fusion output. -/
theorem fusion_pure_witness :
    build_final_decision (fun _ => Option.none)
      (PyVal.dict [("analysis", PyVal.dict [("score", PyVal.int 82)])])
      (PyVal.dict [("permit_form", PyVal.dict [("score", PyVal.int 70)])])
      (PyVal.dict [("design", PyVal.dict [("score", PyVal.int 60)])]) =
    build_final_decision (fun _ => Option.none)
      (PyVal.dict [("analysis", PyVal.dict [("score", PyVal.int 82)]),
                   ("extra", PyVal.none)])
      (PyVal.dict [("permit_form", PyVal.dict [("score", PyVal.int 70), ("note", PyVal.str "x")])])
      (PyVal.dict [("design", PyVal.dict [("score", PyVal.float ⟨605, 10⟩)])]) :=
  fusion_pure_function_of_scores.1 (fun _ => Option.none) _ _ _ _ _ _ rfl rfl rfl

/-- C10: `geocode_address` is total — it always returns a coordinate pair
and never raises: a readable cache entry is returned as-is, a successful
remote lookup is returned when the cache misses, and any remote failure,
timeout or empty result falls back to the fixed Phoenix, AZ coordinates
`(33.4484, -112.0740)`, so an unresolvable address is silently evaluated
at the fallback location instead of being reported unresolved. -/
theorem geocode_total_with_fallback :
    (∀ (c : Frac × Frac) (remote : Option (Frac × Frac)),
      geocode_address (some c) remote = c) ∧
    (∀ r : Frac × Frac, geocode_address Option.none (some r) = r) ∧
    geocode_address Option.none Option.none = (⟨334484, 10000⟩, ⟨-1120740, 10000⟩) :=
  ⟨fun _ _ => rfl, fun _ => rfl, rfl⟩

end SolarCheck
